import Mathlib

/-!
Verification of the reddit-rss digest pipeline.

Shallow embedding of the Python sources:
  src/pipeline/deduplicate.py, src/pipeline/filter_posts.py,
  src/pipeline/extract_comments.py, src/pipeline/render_html.py,
  src/run_digest.py.

Python strings are modelled as Lean `String` (lists of characters);
Python ints as `Int`; float comparisons as exact rational comparisons;
file and network effects as explicit state values or outcome parameters.
-/

set_option maxRecDepth 2000

namespace RedditRss

/-! ## String utilities shared by several modules -/

/-- Model of `str.lower()` restricted to its ASCII behaviour, which is all
the keyword matching in this codebase relies on. -/
def pyLower (s : String) : String := String.mk (s.data.map Char.toLower)

/-- Check that `pat` occurs at the head of `l` (helper for substring search). -/
def matchesAt (pat l : List Char) : Bool :=
  match pat, l with
  | [], _ => true
  | _ :: _, [] => false
  | p :: ps, c :: cs => p == c && matchesAt ps cs

/-- Model of the Python substring test `pat in l` on character lists. -/
def hasSub (pat : List Char) : List Char → Bool
  | [] => matchesAt pat []
  | c :: cs => matchesAt pat (c :: cs) || hasSub pat cs

/-- Accumulator pass splitting a character list into maximal runs of
lowercase ASCII letters, mirroring `re.findall(r"[a-z]+", s)`. -/
def tokensAux : List Char → List Char → List (List Char)
  | [], acc => if acc.isEmpty then [] else [acc.reverse]
  | c :: rest, acc =>
    if 'a' ≤ c && c ≤ 'z' then tokensAux rest (c :: acc)
    else if acc.isEmpty then tokensAux rest acc.reverse
    else acc.reverse :: tokensAux rest []

/-- Model of `re.findall(r"[a-z]+", s.lower())`: the list of maximal
lowercase-alphabetic words of `s`, in order, with multiplicity. -/
def pyWords (s : String) : List (List Char) :=
  tokensAux (s.data.map Char.toLower) []

/-- Model of `len(set(re.findall(r"[a-z]+", body.lower())) & K)`: the number
of distinct alphabetic words of `body` that belong to the keyword list `K`.
The `dedup` realises the Python set construction. -/
def kwHits (body : String) (K : List (List Char)) : Nat :=
  (((pyWords body).dedup).filter (fun w => K.contains w)).length

/-! ## Data model (section 3 of the design document) -/

/-- Post record produced by the feed parser and enriched in place
(src/pipeline/parse_posts.py and filter_posts.py). -/
structure Post where
  id : String
  title : String
  url : String
  author : String
  created : String
  subreddit : String
  score : Int
  num_comments : Int
  flair : String
deriving DecidableEq

/-- Comment record attached to a post by src/pipeline/extract_comments.py. -/
structure Comment where
  author : String
  body : String
  score : Int
  author_flair : String
deriving DecidableEq

/-! ## Deduplication store (src/pipeline/deduplicate.py) -/

def MAX_SEEN_IDS : Nat := 200

/-- State of the file `data/seen_ids.json`: missing, unreadable or holding a
JSON value that is not a list (both treated alike by the loader), or holding
a JSON list of strings. -/
inductive SeenStore where
  | missing
  | corrupt
  | stored (ids : List String)
deriving DecidableEq

/-- Embeds `load_seen_ids`: returns the stored list, and the empty list when
the file is missing or corrupted; it never propagates an error. -/
def load_seen_ids : SeenStore → List String
  | .missing => []
  | .corrupt => []
  | .stored ids => ids

/-- Embeds `save_seen_ids`: truncates to the most recent `MAX_SEEN_IDS`
entries (the Python slice `ids[-MAX_SEEN_IDS:]`, keeping the tail) and
writes the result as the new store contents. -/
def save_seen_ids (ids : List String) : SeenStore :=
  if ids.length > MAX_SEEN_IDS then .stored (ids.drop (ids.length - MAX_SEEN_IDS))
  else .stored ids

/-- Embeds `deduplicate`: loads the seen set once, drops every post whose id
is a member, and returns the surviving posts together with the store, which
the function reads but never writes. -/
def deduplicate (store : SeenStore) (posts : List Post) : List Post × SeenStore :=
  let seen_ids := load_seen_ids store
  (posts.filter (fun p => !(seen_ids.contains p.id)), store)

/-! ## Filter engine (src/pipeline/filter_posts.py) -/

def MIN_COMMENTS : Int := 50

def EXCLUDED_KEYWORDS : List String :=
  ["trailer", "teaser", "first look", "cast", "casting", "renewed", "cancelled",
   "canceled", "streaming on", "coming to", "moves to", "premiere date", "release date"]

def ALLOWED_FLAIRS : List String :=
  ["discussion", "review", "episode discussion", "weekly rec thread", "official"]

def BLOCKED_FLAIRS : List String := ["trailer", "casting", "news", "premiere date"]

def MIN_COMMENT_SCORE_RATIO : ℚ := 1 / 10

/-- Match of the regex alternative `S\d{1,2}E\d{1,2}` at the head of an
already lowercased character list; the two branches realise the one-or-two
digit group of the pattern. -/
def sxxExxAt (l : List Char) : Bool :=
  match l with
  | 's' :: d1 :: 'e' :: d2 :: _ => d1.isDigit && d2.isDigit
  | 's' :: d1 :: d2 :: 'e' :: d3 :: _ => d1.isDigit && d2.isDigit && d3.isDigit
  | _ => false

/-- Match of the alternatives `Episode \d+` and `Season \d+` at the head of a
lowercased character list: the literal word `w` followed by at least one
digit. -/
def wordNumAt (w : List Char) (l : List Char) : Bool :=
  matchesAt w l &&
    match l.drop w.length with
    | d :: _ => d.isDigit
    | [] => false

/-- Match of any alternative of `EPISODE_RE` at the head of a lowercased
character list. -/
def episodeHitAt (l : List Char) : Bool :=
  sxxExxAt l || wordNumAt "episode ".data l || wordNumAt "season ".data l

/-- Run a head matcher at every suffix; this is the search semantics of
`re.search`. -/
def anySuffix (p : List Char → Bool) : List Char → Bool
  | [] => p []
  | c :: cs => p (c :: cs) || anySuffix p cs

/-- Model of `EPISODE_RE.search(s)` with `re.IGNORECASE`: the pattern
`S\d{1,2}E\d{1,2}|Episode \d+|Season \d+` matches somewhere in `s`. -/
def episodeSearch (s : String) : Bool :=
  anySuffix episodeHitAt (s.data.map Char.toLower)

/-- Embeds `_is_episode_discussion`: the episode regex matches the title or
the flair, or the lowercased flair contains the phrase "episode discussion". -/
def is_episode_discussion (post : Post) : Bool :=
  episodeSearch post.title || episodeSearch post.flair ||
    hasSub "episode discussion".data (pyLower post.flair).data

/-- Stage 1 drop test of `filter_posts`: some excluded keyword occurs in the
lowercased title. -/
def droppedByKeyword (post : Post) : Bool :=
  EXCLUDED_KEYWORDS.any (fun kw => hasSub kw.data (pyLower post.title).data)

/-- Stage 2 drop test of `filter_posts`: a non-empty flair is dropped when
its lowercase form is in the blocked list, or when the allow list is
non-empty and the lowercase flair is not a member; an empty flair always
passes. -/
def droppedByFlair (post : Post) : Bool :=
  if post.flair.isEmpty then false
  else
    BLOCKED_FLAIRS.contains (pyLower post.flair) ||
      (!ALLOWED_FLAIRS.isEmpty && !ALLOWED_FLAIRS.contains (pyLower post.flair))

/-- Comment threshold of stage 3: episode discussions use 20, every other
post uses `MIN_COMMENTS`. -/
def commentThreshold (post : Post) : Int :=
  if is_episode_discussion post then 20 else MIN_COMMENTS

/-- Stage 3 drop test of `filter_posts`: a strictly positive comment count
below the threshold. -/
def droppedByComments (post : Post) : Bool :=
  decide (0 < post.num_comments) && decide (post.num_comments < commentThreshold post)

/-- Stage 4 drop test of `filter_posts`: a non-episode post with positive
score whose comment-to-score ratio is below `MIN_COMMENT_SCORE_RATIO`; the
Python float division is modelled by exact rational division. -/
def droppedByRatio (post : Post) : Bool :=
  !is_episode_discussion post && decide (0 < post.score) &&
    decide ((post.num_comments : ℚ) / (post.score : ℚ) < MIN_COMMENT_SCORE_RATIO)

/-- Survival predicate of the per-post loop: none of the four stage tests
fires. -/
def keepPost (post : Post) : Bool :=
  !droppedByKeyword post && !droppedByFlair post &&
    !droppedByComments post && !droppedByRatio post

/-- Embeds `filter_posts`: keep the survivors of the four stages in input
order, then sort by comment count descending; `List.mergeSort` with the
flipped comparison models the stable Python `list.sort(key=..., reverse=True)`. -/
def filter_posts (posts : List Post) : List Post :=
  (posts.filter keepPost).mergeSort (fun a b => decide (b.num_comments ≤ a.num_comments))

/-- Concrete episode-discussion post instantiating the filter stage
theorems. -/
def episodeExample : Post :=
  { id := "t3_ep", title := "Show S01E02", url := "", author := "", created := "",
    subreddit := "television", score := 10, num_comments := 25, flair := "" }

/-- Concrete non-episode post with positive score instantiating the filter
stage theorems. -/
def generalExample : Post :=
  { id := "t3_gen", title := "Random Thoughts", url := "", author := "", created := "",
    subreddit := "television", score := 100, num_comments := 0, flair := "" }

/-- Concrete non-episode post with zero score instantiating the ratio stage
theorem. -/
def zeroScoreExample : Post :=
  { id := "t3_zero", title := "Random Thoughts", url := "", author := "", created := "",
    subreddit := "television", score := 0, num_comments := 3, flair := "" }

/-! ## Feature derivation: sentiment and consensus (src/pipeline/render_html.py) -/

def POSITIVE_WORDS : List (List Char) :=
  (["amazing", "masterpiece", "brilliant", "fantastic", "incredible", "love",
    "loved", "perfect", "excellent", "outstanding", "phenomenal", "superb",
    "beautiful", "gorgeous", "stunning", "best", "favorite", "favourite",
    "great", "wonderful", "awesome", "enjoy", "enjoyed", "impressive"]).map String.data

def NEGATIVE_WORDS : List (List Char) :=
  (["terrible", "awful", "horrible", "disappointing", "boring", "worst",
    "hate", "hated", "trash", "garbage", "mediocre", "bad", "poor",
    "painful", "unwatchable", "cringe", "annoying", "overrated", "weak",
    "bland", "dull", "forgettable", "disaster", "ruined"]).map String.data

def MIXED_WORDS : List (List Char) :=
  (["but", "however", "although", "conflicted", "mixed", "uneven",
    "inconsistent", "divisive", "controversial", "overrated"]).map String.data

/-- Total positive keyword hits over a comment list: the per-comment counts
use set semantics, and the per-comment counts are summed. -/
def posHits (comments : List Comment) : Nat :=
  (comments.map (fun c => kwHits c.body POSITIVE_WORDS)).sum

/-- Total negative keyword hits over a comment list. -/
def negHits (comments : List Comment) : Nat :=
  (comments.map (fun c => kwHits c.body NEGATIVE_WORDS)).sum

/-- Total mixed keyword hits over a comment list. -/
def mixHits (comments : List Comment) : Nat :=
  (comments.map (fun c => kwHits c.body MIXED_WORDS)).sum

/-- Label dictionary returned by the sentiment and consensus classifiers. -/
structure Tag where
  label : String
  emoji : String
  css : String
deriving DecidableEq

/-- Embeds `_compute_sentiment`: the keyword-count cascade of the code, in
its exact order. -/
def compute_sentiment (comments : List Comment) : Tag :=
  if comments.isEmpty then ⟨"Neutral discussion", "💬", "neutral"⟩
  else if posHits comments + negHits comments + mixHits comments = 0 then
    ⟨"Neutral discussion", "💬", "neutral"⟩
  else if posHits comments > negHits comments * 2 ∧ posHits comments > mixHits comments then
    ⟨"Positive vibes", "😍", "positive"⟩
  else if negHits comments > posHits comments * 2 ∧ negHits comments > mixHits comments then
    ⟨"Critical reception", "😬", "negative"⟩
  else if mixHits comments ≥ posHits comments ∧ mixHits comments ≥ negHits comments then
    ⟨"Mixed reactions", "⚖️", "mixed"⟩
  else if ((posHits comments : Int) - (negHits comments : Int)).natAbs ≤ 2 then
    ⟨"Mixed reactions", "⚖️", "mixed"⟩
  else if posHits comments > negHits comments then
    ⟨"Positive vibes", "😍", "positive"⟩
  else ⟨"Critical reception", "😬", "negative"⟩

/-- Modelled from the words of the specification, for comparison with
`compute_sentiment`: no comments or zero total hits give Neutral; then
Positive if positive-count exceeds twice negative-count and exceeds
mixed-count; else Negative symmetrically; else Mixed if mixed-count is at
least both; else Mixed if positive and negative counts differ by at most
two; else the label of the larger of positive and negative. -/
def sentimentSpecLabel (comments : List Comment) : String :=
  if comments.isEmpty then "Neutral discussion"
  else if posHits comments + negHits comments + mixHits comments = 0 then
    "Neutral discussion"
  else if posHits comments > 2 * negHits comments ∧ posHits comments > mixHits comments then
    "Positive vibes"
  else if negHits comments > 2 * posHits comments ∧ negHits comments > mixHits comments then
    "Critical reception"
  else if mixHits comments ≥ posHits comments ∧ mixHits comments ≥ negHits comments then
    "Mixed reactions"
  else if ((posHits comments : Int) - (negHits comments : Int)).natAbs ≤ 2 then
    "Mixed reactions"
  else if posHits comments > negHits comments then "Positive vibes"
  else "Critical reception"

def AGREE_WORDS : List (List Char) :=
  (["agree", "exactly", "this", "yes", "right", "same", "true", "absolutely",
    "definitely"]).map String.data

def DISAGREE_WORDS : List (List Char) :=
  (["disagree", "wrong", "no", "nah", "nope", "but", "however", "actually"]).map String.data

/-- Total agreement keyword hits over a comment list. -/
def agreeHits (comments : List Comment) : Nat :=
  (comments.map (fun c => kwHits c.body AGREE_WORDS)).sum

/-- Total disagreement keyword hits over a comment list. -/
def disagreeHits (comments : List Comment) : Nat :=
  (comments.map (fun c => kwHits c.body DISAGREE_WORDS)).sum

/-- Round-half-to-even on the exact fraction `n / d`, the behaviour of the
Python builtin `round` on the values reachable here. -/
def pyRound (n d : Nat) : Nat :=
  if 2 * (n % d) < d then n / d
  else if d < 2 * (n % d) then n / d + 1
  else if n / d % 2 = 0 then n / d else n / d + 1

/-- Strong-consensus tag reporting the given percentage. -/
def strongTag (pct : Nat) : Tag :=
  ⟨"Strong Consensus (" ++ toString pct ++ "% alignment)", "✅", "consensus"⟩

/-- Divided-community tag reporting the given percentage. -/
def dividedTag (pct : Nat) : Tag :=
  ⟨"Divided Community (" ++ toString pct ++ "% split)", "⚡", "divided"⟩

/-- Embeds `_compute_consensus`: requires at least two comments and at least
three total agree or disagree hits, else returns nothing; otherwise
classifies the rounded agreement percentage. The Python float expression
`round(agree / total * 100)` is modelled by exact rational rounding. -/
def compute_consensus (comments : List Comment) : Option Tag :=
  if comments.length < 2 then none
  else if agreeHits comments + disagreeHits comments < 3 then none
  else
    let pct := pyRound (agreeHits comments * 100)
      (agreeHits comments + disagreeHits comments)
    if pct ≥ 70 then some (strongTag pct)
    else if pct ≤ 30 then some (dividedTag (100 - pct))
    else some (dividedTag (max pct (100 - pct)))

/-- Concrete comment whose body holds three agreement keywords. -/
def agreeComment : Comment :=
  { author := "u1", body := "i agree yes absolutely", score := 1, author_flair := "" }

/-- Concrete comment with no sentiment or consensus keywords. -/
def plainComment : Comment :=
  { author := "u2", body := "ok fine", score := 1, author_flair := "" }

/-! ## Comment extraction (src/pipeline/extract_comments.py) -/

def MAX_COMMENTS_PER_POST : Nat := 3

/-- Split a character list at the first occurrence of `stop`, returning the
chunk before it and the remainder after it; `none` when `stop` is absent. -/
def splitUntil (stop : Char) : List Char → Option (List Char × List Char)
  | [] => none
  | c :: cs =>
    if c = stop then some ([], cs)
    else
      match splitUntil stop cs with
      | none => none
      | some (a, b) => some (c :: a, b)

/-- Try to match the markdown link pattern `\[([^\]]+)\]\([^\)]+\)` at the
head of the list; on success return the display text and the remainder after
the closing parenthesis. Because the two character classes cannot cross
their closing delimiter, the regex match at a position is exactly this
deterministic decomposition. -/
def tryLink : List Char → Option (List Char × List Char)
  | '[' :: rest =>
    match splitUntil ']' rest with
    | some (txt, rest2) =>
      if txt.isEmpty then none
      else
        match rest2 with
        | '(' :: rest3 =>
          match splitUntil ')' rest3 with
          | some (url, rest4) => if url.isEmpty then none else some (txt, rest4)
          | none => none
        | _ => none
    | none => none
  | _ => none

/-- Fuelled scanner of `re.sub(r"\[([^\]]+)\]\([^\)]+\)", r"\1", body)`: at
each position try the link pattern, replacing a match by its display text
and continuing after it, else keep one character and move on. Every step
consumes at least one character, so fuel equal to the length of the list is
enough for a complete scan. -/
def subLinksFuel : Nat → List Char → List Char
  | 0, l => l
  | _ + 1, [] => []
  | fuel + 1, c :: cs =>
    match tryLink (c :: cs) with
    | some (txt, rest) => txt ++ subLinksFuel fuel rest
    | none => c :: subLinksFuel fuel cs

/-- Model of the markdown-link substitution applied to a comment body. -/
def subLinks (l : List Char) : List Char := subLinksFuel l.length l

/-- Embeds the body cleanup of the extraction loop: truncate bodies longer
than 500 characters to their first 500 characters plus an ellipsis, then
rewrite markdown links to their display text, in that order. -/
def clean_body (body : String) : String :=
  String.mk (subLinks
    (if body.length > 500 then body.data.take 500 ++ "...".data else body.data))

/-- Raw JSON child of the comment listing, with the defaulted fields already
resolved the way the `dict.get` calls resolve them. -/
structure RawChild where
  kind : String
  author : String
  body : String
  score : Int
  author_flair : String
deriving DecidableEq

/-- Comment record built from one raw child, as in the loop body. -/
def buildComment (c : RawChild) : Comment :=
  { author := c.author, body := clean_body c.body, score := c.score,
    author_flair := c.author_flair }

/-- Outcome of the per-post HTTP fetch of the comment listing. -/
inductive FetchOutcome where
  | ok (children : List RawChild)
  | okNoData
  | httpError
  | exn
deriving DecidableEq

/-- Post state after the comment-extraction stage; `comments = none` models
a post dictionary without a comments key. -/
structure CPost where
  post : Post
  comments : Option (List Comment)
  comments_degraded : Bool
deriving DecidableEq

/-- Cleaned comments of one post: keep the children of kind "t1", build the
comment records, sort by score descending (the stable Python sort), and take
the top `MAX_COMMENTS_PER_POST`. -/
def processChildren (children : List RawChild) : List Comment :=
  (((children.filter (fun ch => ch.kind == "t1")).map buildComment).mergeSort
    (fun a b => decide (b.score ≤ a.score))).take MAX_COMMENTS_PER_POST

/-- Embeds `extract_comments`: each post is updated according to the outcome
of its comment fetch. A 200 response whose payload is not a thread array
leaves the comments key absent; an HTTP error or an exception attaches an
empty list and the degraded marker. -/
def extract_comments (posts : List (Post × FetchOutcome)) : List CPost :=
  posts.map (fun pr =>
    match pr.2 with
    | .ok children =>
      { post := pr.1, comments := some (processChildren children),
        comments_degraded := false }
    | .okNoData => { post := pr.1, comments := none, comments_degraded := false }
    | .httpError => { post := pr.1, comments := some [], comments_degraded := true }
    | .exn => { post := pr.1, comments := some [], comments_degraded := true })

/-- Concrete raw child whose body is 501 characters long. -/
def longChild : RawChild :=
  { kind := "t1", author := "u", body := String.mk (List.replicate 501 'a'),
    score := 1, author_flair := "" }

/-- Concrete raw child whose body holds one markdown link. -/
def linkChild : RawChild :=
  { kind := "t1", author := "u", body := "see [the wiki](http://x) now",
    score := 2, author_flair := "" }

/-! ## Run orchestrator (src/run_digest.py) -/

/-- Post dictionary as the orchestrator sees it: the underlying post record
plus the comment fields that the extraction stage may add. -/
structure DPost where
  post : Post
  comments : Option (List Comment) := none
  comments_degraded : Bool := false
deriving DecidableEq

/-- Outcomes of the seven effectful stages, supplied as parameters of the
orchestrator model: each stage either returns a value or raises. -/
structure RunEnv where
  fetch : Except String Unit
  parse : Except String (List DPost)
  dedupStage : List DPost → Except String (List DPost)
  filterStage : List DPost → Except String (List DPost)
  extractStage : List DPost → Except String (List DPost)
  renderStage : List DPost → Except String Unit
  memoryStage : List DPost → Except String Unit

/-- Run metrics dictionary of `run_pipeline`, without the wall-clock
fields. -/
structure RunMetrics where
  posts_fetched : Nat
  posts_after_dedup : Nat
  posts_after_filter : Nat
  posts_in_digest : Nat
  comments_success : Nat
  comments_total : Nat
  degraded : Bool
  status : String
deriving DecidableEq

/-- Observable result of a run: the final metrics, whether the fallback
error page was written, and whether the memory-update stage was reached. -/
structure RunTrace where
  metrics : RunMetrics
  fallbackWritten : Bool
  memoryAttempted : Bool
deriving DecidableEq

/-- Initial metrics dictionary: all counters zero, status "failed". -/
def initMetrics : RunMetrics :=
  { posts_fetched := 0, posts_after_dedup := 0, posts_after_filter := 0,
    posts_in_digest := 0, comments_success := 0, comments_total := 0,
    degraded := false, status := "failed" }

/-- Count of posts with a non-empty comments list, the Python truthiness
test `p.get("comments") and len(p["comments"]) > 0`. -/
def commentsSuccessCount (posts : List DPost) : Nat :=
  (posts.filter (fun p =>
    match p.comments with
    | some cs => !cs.isEmpty
    | none => false)).length

/-- Embeds `run_pipeline`: the seven-stage sequence with its exact
error-handling control flow. Fetch and parse failures write the fallback
page and return at once; dedup and filter failures continue with the
previous list; an extraction failure empties every comments list and marks
the run degraded; a render failure writes the fallback page and sets status
"failed"; the memory stage then overwrites status from the degraded flag
before calling the updater, and downgrades to "partial" if the updater
raises. -/
def run_pipeline (env : RunEnv) : RunTrace :=
  match env.fetch with
  | .error _ =>
    { metrics := { initMetrics with status := "failed" },
      fallbackWritten := true, memoryAttempted := false }
  | .ok _ =>
    match env.parse with
    | .error _ =>
      { metrics := initMetrics, fallbackWritten := true, memoryAttempted := false }
    | .ok posts =>
      let m1 := { initMetrics with posts_fetched := posts.length }
      let s2 : List DPost × RunMetrics := match env.dedupStage posts with
        | .ok ps => (ps, { m1 with posts_after_dedup := ps.length })
        | .error _ => (posts, { m1 with posts_after_dedup := posts.length })
      let s3 : List DPost × RunMetrics := match env.filterStage s2.1 with
        | .ok ps => (ps, { s2.2 with posts_after_filter := ps.length })
        | .error _ => (s2.1, { s2.2 with posts_after_filter := s2.1.length })
      let s4 : List DPost × RunMetrics := match env.extractStage s3.1 with
        | .ok ps =>
          (ps,
            { s3.2 with
              comments_total := ps.length
              comments_success := commentsSuccessCount ps
              degraded := commentsSuccessCount ps == 0 && decide (0 < ps.length) })
        | .error _ =>
          (s3.1.map (fun p => { p with comments := some [], comments_degraded := true }),
           { s3.2 with degraded := true })
      let s5 : RunMetrics × Bool := match env.renderStage s4.1 with
        | .ok _ => (({ s4.2 with posts_in_digest := s4.1.length } : RunMetrics), false)
        | .error _ => (({ s4.2 with status := "failed" } : RunMetrics), true)
      let m6 := { s5.1 with status := if s5.1.degraded then "partial" else "success" }
      let m7 := match env.memoryStage s4.1 with
        | .ok _ => m6
        | .error _ => { m6 with status := "partial" }
      { metrics := m7, fallbackWritten := s5.2, memoryAttempted := true }

/-- Concrete run in which every stage succeeds except rendering, extraction
found comments (so the run is not degraded), and the memory update
succeeds. -/
def renderFailEnv : RunEnv :=
  { fetch := .ok ()
  , parse := .ok [{ post := generalExample }]
  , dedupStage := fun ps => .ok ps
  , filterStage := fun ps => .ok ps
  , extractStage := fun ps =>
      .ok (ps.map fun p => { p with comments := some [plainComment] })
  , renderStage := fun _ => .error "template failure"
  , memoryStage := fun _ => .ok () }

/-- Same run as `renderFailEnv` except that the memory update also
raises. -/
def renderMemFailEnv : RunEnv :=
  { renderFailEnv with memoryStage := fun _ => .error "disk full" }

end RedditRss

namespace RedditRss

/-! ## Theorems -/

/-- C3: for ID lists longer than 200 elements, save followed by load yields
exactly the last 200 input elements in order; every save leaves at most 200
elements persisted; and loading a missing or corrupt file yields the empty
list rather than an error. -/
theorem seen_ids_roundtrip :
    (∀ ids : List String, ids.length > 200 →
      load_seen_ids (save_seen_ids ids) = ids.drop (ids.length - 200) ∧
      (load_seen_ids (save_seen_ids ids)).length = 200) ∧
    (∀ ids : List String, (load_seen_ids (save_seen_ids ids)).length ≤ 200) ∧
    load_seen_ids .missing = [] ∧ load_seen_ids .corrupt = [] := by
  refine ⟨?_, ?_, rfl, rfl⟩
  · intro ids h
    have h200 : 200 < ids.length := h
    refine ⟨?_, ?_⟩ <;>
      simp only [save_seen_ids, MAX_SEEN_IDS, gt_iff_lt, if_pos h200, load_seen_ids,
        List.length_drop]
    omega
  · intro ids
    simp only [save_seen_ids, MAX_SEEN_IDS, gt_iff_lt]
    split_ifs with h
    · simp only [load_seen_ids, List.length_drop]
      omega
    · simp only [load_seen_ids]
      omega

/-- C3 witness: a concrete 201-element list saturates the rolling window. -/
theorem seen_ids_roundtrip_witness :
    ((List.range 201).map toString).length > 200 ∧
    (load_seen_ids (save_seen_ids ((List.range 201).map toString))).length = 200 :=
  ⟨by simp, (seen_ids_roundtrip.1 ((List.range 201).map toString) (by simp)).2⟩

/-- C9: filtering with a fixed seen store is idempotent, and deduplicate
returns the store unchanged (it never writes it). -/
theorem deduplicate_idempotent_and_pure (store : SeenStore) (posts : List Post) :
    (deduplicate store (deduplicate store posts).1).1 = (deduplicate store posts).1 ∧
    (deduplicate store posts).2 = store := by
  refine ⟨?_, rfl⟩
  simp [deduplicate, List.filter_filter]

/-- Transitivity of the descending comparison used by `filter_posts`. -/
theorem descLE_trans (a b c : Post) :
    decide (b.num_comments ≤ a.num_comments) = true →
    decide (c.num_comments ≤ b.num_comments) = true →
    decide (c.num_comments ≤ a.num_comments) = true := by
  simp only [decide_eq_true_eq]
  omega

/-- Totality of the descending comparison used by `filter_posts`. -/
theorem descLE_total (a b : Post) :
    (decide (b.num_comments ≤ a.num_comments) ||
      decide (a.num_comments ≤ b.num_comments)) = true := by
  simp only [Bool.or_eq_true, decide_eq_true_eq]
  omega

/-- C4: the output of `filter_posts` is sorted by `num_comments` in
descending order, and for every comment count the posts carrying it appear
in the output in exactly their relative input order (the sort is stable). -/
theorem filter_posts_sorted_and_stable (posts : List Post) :
    (filter_posts posts).Pairwise (fun a b => b.num_comments ≤ a.num_comments) ∧
    ∀ k : Int, (filter_posts posts).filter (fun p => p.num_comments == k) =
      (posts.filter keepPost).filter (fun p => p.num_comments == k) := by
  constructor
  · have hs := List.sorted_mergeSort descLE_trans descLE_total
      (posts.filter keepPost)
    exact hs.imp (fun h => by simpa using h)
  · intro k
    set p : Post → Bool := fun q => q.num_comments == k with hp
    set l : List Post := posts.filter keepPost with hl
    set out : List Post := filter_posts posts with hout
    have hmem : ∀ q ∈ l.filter p, q.num_comments = k := by
      intro q hq
      have := (List.mem_filter.mp hq).2
      simpa [hp] using this
    have hcp : (l.filter p).Pairwise (fun a b : Post =>
        decide (b.num_comments ≤ a.num_comments) = true) := by
      apply List.pairwise_of_forall_mem_list
      intro a ha b hb
      simp [hmem a ha, hmem b hb]
    have hsub : List.Sublist (l.filter p) out :=
      List.sublist_mergeSort descLE_trans descLE_total hcp (List.filter_sublist l)
    have hsub2 : List.Sublist (l.filter p) (out.filter p) := by
      have := hsub.filter p
      rwa [List.filter_filter, (by funext a; simp : (fun a => p a && p a) = p)] at this
    have hperm : List.Perm (out.filter p) (l.filter p) := by
      have : List.Perm out l := List.mergeSort_perm l _
      exact this.filter p
    exact (hsub2.eq_of_length hperm.length_eq.symm).symm

/-- C5: in the comment-count stage of `filter_posts`, episode discussions
use threshold 20 and all other posts use 50; a post with zero comments is
never dropped by the stage; and the stage drops a post exactly when its
comment count lies strictly between zero and its threshold. -/
theorem comment_stage_thresholds (post : Post) :
    (is_episode_discussion post = true → commentThreshold post = 20) ∧
    (is_episode_discussion post = false → commentThreshold post = 50) ∧
    (post.num_comments = 0 → droppedByComments post = false) ∧
    (droppedByComments post = true ↔
      0 < post.num_comments ∧ post.num_comments < commentThreshold post) := by
  refine ⟨fun h => by simp [commentThreshold, h],
    fun h => by simp [commentThreshold, h, MIN_COMMENTS],
    fun h => by simp [droppedByComments, h],
    by simp [droppedByComments]⟩

/-- C5 witness: the concrete episode post gets threshold 20, the concrete
general post gets threshold 50, and its zero comment count is not dropped. -/
theorem comment_stage_thresholds_witness :
    (is_episode_discussion episodeExample = true ∧ commentThreshold episodeExample = 20) ∧
    (is_episode_discussion generalExample = false ∧ commentThreshold generalExample = 50) ∧
    (generalExample.num_comments = 0 ∧ droppedByComments generalExample = false) :=
  ⟨⟨by decide, (comment_stage_thresholds episodeExample).1 (by decide)⟩,
   ⟨by decide, (comment_stage_thresholds generalExample).2.1 (by decide)⟩,
   ⟨by decide, (comment_stage_thresholds generalExample).2.2.1 (by decide)⟩⟩

/-- C6: the ratio stage of `filter_posts` drops a post exactly when it is
not an episode discussion, has positive score, and its comment-to-score
ratio is below one tenth; episode posts and posts with non-positive score
are never dropped by it; and for positive score the rational test is
equivalent to the integer inequality `10 * num_comments < score`. -/
theorem ratio_stage_characterization (post : Post) :
    (droppedByRatio post = true ↔
      is_episode_discussion post = false ∧ 0 < post.score ∧
        (post.num_comments : ℚ) / (post.score : ℚ) < MIN_COMMENT_SCORE_RATIO) ∧
    (is_episode_discussion post = true → droppedByRatio post = false) ∧
    (post.score ≤ 0 → droppedByRatio post = false) ∧
    (0 < post.score →
      ((post.num_comments : ℚ) / (post.score : ℚ) < MIN_COMMENT_SCORE_RATIO ↔
        10 * post.num_comments < post.score)) := by
  refine ⟨?_, fun h => by simp [droppedByRatio, h], ?_, ?_⟩
  · simp [droppedByRatio, and_assoc, Bool.not_eq_true']
  · intro h
    have : ¬ (0 < post.score) := not_lt.mpr h
    simp [droppedByRatio, this]
  · intro hs
    have hs' : (0 : ℚ) < (post.score : ℚ) := by exact_mod_cast hs
    simp only [ MIN_COMMENT_SCORE_RATIO]
    rw [div_lt_div_iff₀ hs' (by norm_num : (0 : ℚ) < 10), one_mul,
      (by push_cast; ring : ((post.num_comments : ℚ) * 10) =
        (((10 * post.num_comments : Int) : ℚ)))]
    exact Int.cast_lt

/-- C6 witness: the concrete episode post and the zero-score post are not
dropped by the ratio stage, and the integer characterization holds at the
concrete positive-score post. -/
theorem ratio_stage_characterization_witness :
    (is_episode_discussion episodeExample = true ∧ droppedByRatio episodeExample = false) ∧
    (zeroScoreExample.score ≤ 0 ∧ droppedByRatio zeroScoreExample = false) ∧
    (0 < generalExample.score ∧
      ((generalExample.num_comments : ℚ) / (generalExample.score : ℚ) <
          MIN_COMMENT_SCORE_RATIO ↔
        10 * generalExample.num_comments < generalExample.score)) :=
  ⟨⟨by decide, (ratio_stage_characterization episodeExample).2.1 (by decide)⟩,
   ⟨by decide, (ratio_stage_characterization zeroScoreExample).2.2.1 (by decide)⟩,
   ⟨by decide, (ratio_stage_characterization generalExample).2.2.2 (by decide)⟩⟩

/-- Splitting the tokenizer at a space: the words of `l1 ++ ' ' :: l2` are
the words of `l1` followed by the words of `l2`, for any accumulator. -/
theorem tokensAux_space_split (l1 l2 : List Char) :
    ∀ acc, tokensAux (l1 ++ ' ' :: l2) acc = tokensAux l1 acc ++ tokensAux l2 [] := by
  induction l1 with
  | nil =>
    intro acc
    cases acc <;> simp [tokensAux]
  | cons c l1 ih =>
    intro acc
    simp only [List.cons_append, tokensAux]
    split_ifs <;> simp [ih]

/-- Word extraction distributes over concatenation with a space separator. -/
theorem pyWords_append_space (a b : String) :
    pyWords (a ++ " " ++ b) = pyWords a ++ pyWords b := by
  unfold pyWords
  have hdata : (a ++ " " ++ b).data = a.data ++ ' ' :: b.data := by
    rw [String.data_append, String.data_append]
    have : (" " : String).data = [' '] := by decide
    rw [this]
    simp
  rw [hdata]
  simp only [List.map_append, List.map_cons]
  rw [show Char.toLower ' ' = ' ' from rfl]
  exact tokensAux_space_split _ _ _

/-- C10: per-comment keyword counting has set semantics (repeating the body
of a comment does not change its hit count), the same keyword spread over k
separate comments contributes k hits, and the word "overrated", which sits
in both the negative and the mixed keyword lists, increments both counts. -/
theorem sentiment_hit_set_semantics :
    (∀ (b : String) (K : List (List Char)), kwHits (b ++ " " ++ b) K = kwHits b K) ∧
    (∀ (k : Nat) (c : Comment),
      posHits (List.replicate k c) = k * kwHits c.body POSITIVE_WORDS) ∧
    (∀ (a fl : String) (s : Int),
      negHits [⟨a, "overrated", s, fl⟩] = 1 ∧ mixHits [⟨a, "overrated", s, fl⟩] = 1) := by
  refine ⟨?_, ?_, ?_⟩
  · intro b K
    unfold kwHits
    rw [pyWords_append_space b b]
    have hperm : List.Perm ((pyWords b ++ pyWords b).dedup) ((pyWords b).dedup) :=
      (List.perm_ext_iff_of_nodup (List.nodup_dedup _) (List.nodup_dedup _)).2
        (by intro w; simp)
    exact (hperm.filter _).length_eq
  · intro k c
    simp [posHits, List.map_replicate, List.sum_replicate, smul_eq_mul]
  · intro a fl s
    constructor
    · simp only [negHits, List.map_cons, List.map_nil, List.sum_cons, List.sum_nil]
      decide
    · simp only [mixHits, List.map_cons, List.map_nil, List.sum_cons, List.sum_nil]
      decide

/-- C7: the sentiment classifier computes exactly the cascade stated in the
specification, in the stated order. -/
theorem sentiment_matches_spec (comments : List Comment) :
    (compute_sentiment comments).label = sentimentSpecLabel comments := by
  unfold compute_sentiment sentimentSpecLabel
  split_ifs <;> first | rfl | omega

/-- C8: the consensus classifier returns nothing unless there are at least
two comments and at least three total agree or disagree hits; otherwise it
classifies the rounded agreement percentage: Strong Consensus reporting pct
at 70 or above, Divided Community reporting 100 minus pct at 30 or below,
and Divided Community reporting the larger of the two in between. -/
theorem consensus_characterization (comments : List Comment) :
    (comments.length < 2 ∨ agreeHits comments + disagreeHits comments < 3 →
      compute_consensus comments = none) ∧
    (2 ≤ comments.length → 3 ≤ agreeHits comments + disagreeHits comments →
      compute_consensus comments =
        (if pyRound (agreeHits comments * 100)
            (agreeHits comments + disagreeHits comments) ≥ 70 then
          some (strongTag (pyRound (agreeHits comments * 100)
            (agreeHits comments + disagreeHits comments)))
        else if pyRound (agreeHits comments * 100)
            (agreeHits comments + disagreeHits comments) ≤ 30 then
          some (dividedTag (100 - pyRound (agreeHits comments * 100)
            (agreeHits comments + disagreeHits comments)))
        else some (dividedTag (max
          (pyRound (agreeHits comments * 100)
            (agreeHits comments + disagreeHits comments))
          (100 - pyRound (agreeHits comments * 100)
            (agreeHits comments + disagreeHits comments)))))) := by
  constructor
  · intro h
    unfold compute_consensus
    by_cases h1 : comments.length < 2
    · rw [if_pos h1]
    · rcases h with h | h
      · exact absurd h h1
      · rw [if_neg h1, if_pos h]
  · intro h1 h2
    unfold compute_consensus
    rw [if_neg (by omega), if_neg (by omega)]

/-- C8 witness: two concrete comments with three agreement hits and no
disagreement hits classify as Strong Consensus at 100 percent. -/
theorem consensus_characterization_witness :
    2 ≤ ([agreeComment, plainComment] : List Comment).length ∧
    3 ≤ agreeHits [agreeComment, plainComment] + disagreeHits [agreeComment, plainComment] ∧
    compute_consensus [agreeComment, plainComment] = some (strongTag 100) := by
  refine ⟨by decide, by decide, ?_⟩
  have h := (consensus_characterization [agreeComment, plainComment]).2
    (by decide) (by decide)
  rw [h]
  decide

/-- Length bookkeeping of `splitUntil`: the chunk, the remainder and the
consumed stop character account for the whole input. -/
theorem splitUntil_lengths (stop : Char) :
    ∀ (l a b : List Char), splitUntil stop l = some (a, b) →
      a.length + b.length + 1 = l.length := by
  intro l
  induction l with
  | nil => intro a b h; simp [splitUntil] at h
  | cons c cs ih =>
    intro a b h
    unfold splitUntil at h
    split_ifs at h with hc
    · simp only [Option.some.injEq, Prod.mk.injEq] at h
      obtain ⟨ha, hb⟩ := h
      subst ha hb
      simp
    · cases hrec : splitUntil stop cs with
      | none => rw [hrec] at h; simp at h
      | some p =>
        obtain ⟨a1, b1⟩ := p
        rw [hrec] at h
        simp only [Option.some.injEq, Prod.mk.injEq] at h
        obtain ⟨ha, hb⟩ := h
        subst ha hb
        have := ih a1 b1 hrec
        simp only [List.length_cons]
        omega

/-- Length bookkeeping of `tryLink`: a match consumes the display text, the
two brackets, the two parentheses and at least one url character. -/
theorem tryLink_lengths (l txt rest : List Char) (h : tryLink l = some (txt, rest)) :
    txt.length + rest.length + 5 ≤ l.length := by
  unfold tryLink at h
  split at h
  case h_2 => exact absurd h (by simp)
  case h_1 rest0 =>
    split at h
    case h_2 => exact absurd h (by simp)
    case h_1 txt1 rest2 h1 =>
      split_ifs at h with he
      split at h
      · rename_i rest3
        have h1len := splitUntil_lengths ']' rest0 txt1 ('(' :: rest3) h1
        split at h
        · rename_i url rest4 h2
          split_ifs at h with hu
          simp only [Option.some.injEq, Prod.mk.injEq] at h
          obtain ⟨ht, hr⟩ := h
          subst ht hr
          have h2len := splitUntil_lengths ')' rest3 url rest4 h2
          have hupos : 1 ≤ url.length := by
            cases url with
            | nil => simp at hu
            | cons _ _ => simp
          simp only [List.length_cons] at h1len ⊢
          omega
        · exact absurd h (by simp)
      · exact absurd h (by simp)

/-- The link substitution never lengthens a character list. -/
theorem subLinksFuel_length_le :
    ∀ (fuel : Nat) (l : List Char), (subLinksFuel fuel l).length ≤ l.length := by
  intro fuel
  induction fuel with
  | zero => intro l; simp [subLinksFuel]
  | succ fuel ih =>
    intro l
    cases l with
    | nil => simp [subLinksFuel]
    | cons c cs =>
      cases h : tryLink (c :: cs) with
      | none =>
        simp only [subLinksFuel, h, List.length_cons]
        have := ih cs
        omega
      | some p =>
        obtain ⟨txt, rest⟩ := p
        simp only [subLinksFuel, h, List.length_append, List.length_cons]
        have hlen := tryLink_lengths (c :: cs) txt rest h
        have := ih rest
        simp only [List.length_cons] at hlen
        omega

/-- Cleaned comment bodies are at most 503 characters long: 500 characters
of truncated body plus the three-character ellipsis, and the link rewriting
never lengthens the text. -/
theorem clean_body_length_le (body : String) : (clean_body body).length ≤ 503 := by
  unfold clean_body subLinks
  have hb : body.length = body.data.length := rfl
  split_ifs with h
  · have h1 := subLinksFuel_length_le
      (body.data.take 500 ++ ("..." : String).data).length
      (body.data.take 500 ++ ("..." : String).data)
    have h3 : ("..." : String).data.length = 3 := by decide
    have h2 : (body.data.take 500 ++ ("..." : String).data).length ≤ 503 := by
      rw [List.length_append, List.length_take]
      omega
    show (subLinksFuel _ _).length ≤ 503
    omega
  · have h1 := subLinksFuel_length_le body.data.length body.data
    show (subLinksFuel _ _).length ≤ 503
    omega

/-- Heads other than an opening bracket never start a link match. -/
theorem tryLink_ne_bracket (c : Char) (cs : List Char) (hc : c ≠ '[') :
    tryLink (c :: cs) = none := by
  unfold tryLink
  split
  · rename_i heq
    exact absurd ((List.cons.injEq _ _ _ _).mp heq).1 hc
  · rfl

/-- The link substitution is the identity on lists without an opening
bracket. -/
theorem subLinksFuel_no_bracket :
    ∀ (fuel : Nat) (l : List Char), '[' ∉ l → subLinksFuel fuel l = l := by
  intro fuel
  induction fuel with
  | zero => intro l _; rfl
  | succ fuel ih =>
    intro l hl
    cases l with
    | nil => rfl
    | cons c cs =>
      have hc : c ≠ '[' := fun h => hl (h ▸ List.mem_cons_self c cs)
      have hcs : '[' ∉ cs := fun h => hl (List.mem_cons_of_mem c h)
      simp only [subLinksFuel, tryLink_ne_bracket c cs hc, ih cs hcs]

/-- Cleaning the concrete 501-character body yields 503 characters. -/
theorem clean_body_longChild :
    (clean_body (String.mk (List.replicate 501 'a'))).length = 503 := by
  unfold clean_body
  have hlen : (String.mk (List.replicate 501 'a')).length = 501 := by
    simp [String.length]
  rw [if_pos (by omega)]
  have hnb : '[' ∉ (String.mk (List.replicate 501 'a')).data.take 500 ++
      ("..." : String).data := by
    intro hmem
    rcases List.mem_append.mp hmem with hmem | hmem
    · have := List.mem_of_mem_take hmem
      simp [List.mem_replicate] at this
    · simp [show ("..." : String).data = ['.', '.', '.'] by decide] at hmem
  unfold subLinks
  rw [subLinksFuel_no_bracket _ _ hnb]
  simp [String.length, show ("..." : String).data = ['.', '.', '.'] by decide]

/-- C2 counterexample: a raw comment body of 501 characters is stored with
503 characters, so the claimed 500-character bound fails. -/
theorem comment_body_truncation_counterexample :
    ∃ cp ∈ extract_comments [(generalExample, .ok [longChild])],
      ∃ cs, cp.comments = some cs ∧ ∃ c ∈ cs, 500 < c.body.length := by
  refine ⟨⟨generalExample, some (processChildren [longChild]), false⟩,
    by simp [extract_comments], processChildren [longChild], rfl,
    buildComment longChild, ?_, ?_⟩
  · have hk : longChild.kind = "t1" := rfl
    simp [processChildren, List.mergeSort_singleton, MAX_COMMENTS_PER_POST, hk]
  · show 500 < (clean_body longChild.body).length
    rw [show longChild.body = String.mk (List.replicate 501 'a') from rfl,
      clean_body_longChild]
    omega

/-- C2 amended: every comment record attached by `extract_comments` is built
from a kind "t1" raw child by the body cleanup, hence its stored body is the
link-rewritten truncation and is at most 503 characters long (500 plus the
appended ellipsis). -/
theorem comment_bodies_bounded (posts : List (Post × FetchOutcome)) (cp : CPost)
    (hcp : cp ∈ extract_comments posts) (cs : List Comment)
    (hcs : cp.comments = some cs) :
    ∀ c ∈ cs, c.body.length ≤ 503 ∧
      ∃ child : RawChild, child.kind = "t1" ∧ c = buildComment child := by
  intro c hc
  obtain ⟨⟨p, r⟩, hmem, rfl⟩ := List.mem_map.mp hcp
  cases r with
  | ok children =>
    simp only [Option.some.injEq] at hcs
    subst hcs
    have hc1 : c ∈ ((children.filter (fun ch => ch.kind == "t1")).map buildComment) := by
      have := List.mem_of_mem_take hc
      simpa using (List.mem_mergeSort.mp this)
    obtain ⟨child, hchild, rfl⟩ := List.mem_map.mp hc1
    have hkind : child.kind = "t1" := by
      have := (List.mem_filter.mp hchild).2
      simpa using this
    exact ⟨clean_body_length_le child.body, child, hkind, rfl⟩
  | okNoData => simp at hcs
  | httpError =>
    simp only [Option.some.injEq] at hcs
    subst hcs
    simp at hc
  | exn =>
    simp only [Option.some.injEq] at hcs
    subst hcs
    simp at hc

/-- C2 amended witness: the concrete markdown-link comment is attached with
its link rewritten to the display text and within the 503-character bound. -/
theorem comment_bodies_bounded_witness :
    (⟨generalExample, some (processChildren [linkChild]), false⟩ : CPost) ∈
        extract_comments [(generalExample, .ok [linkChild])] ∧
    buildComment linkChild ∈ processChildren [linkChild] ∧
    (buildComment linkChild).body.length ≤ 503 ∧
    (buildComment linkChild).body = "see the wiki now" := by
  have hmem : (⟨generalExample, some (processChildren [linkChild]), false⟩ : CPost) ∈
      extract_comments [(generalExample, .ok [linkChild])] := by
    simp [extract_comments]
  have hc : buildComment linkChild ∈ processChildren [linkChild] := by
    simp [processChildren, List.mergeSort_singleton, MAX_COMMENTS_PER_POST, linkChild]
  refine ⟨hmem, hc, ?_, by decide⟩
  exact (comment_bodies_bounded [(generalExample, .ok [linkChild])] _ hmem _ rfl
    (buildComment linkChild) hc).1

/-- C1: evaluation of the orchestrator at a run whose render stage raises
while everything else succeeds. The fallback page is written and the memory
stage is still attempted, as claimed, but the final recorded status is
"success", not "failed": line 161 of run_digest.py unconditionally
overwrites the "failed" set by the render handler at line 151 before the
memory update runs. With a failing memory update the status ends as
"partial"; no path leaves it at "failed". -/
theorem run_pipeline_render_failure_eval :
    (run_pipeline renderFailEnv).fallbackWritten = true ∧
    (run_pipeline renderFailEnv).memoryAttempted = true ∧
    (run_pipeline renderFailEnv).metrics.status = "success" ∧
    (run_pipeline renderMemFailEnv).metrics.status = "partial" :=
  ⟨rfl, rfl, rfl, rfl⟩

end RedditRss
